import Mathlib

/-!
# Verification of the bash agent-loop core (`cli_wrapper.py`)

Shallow embedding of the core of `src/cli_wrapper.py`:

* `handleBashCommand` embeds `BashSession._handle_bash_command`;
* `mkEnvelope` and `processToolCalls` embed `BashSession.process_tool_calls`;
* `runLoop` embeds the `while True` agent loop of
  `BashSession.process_bash_command`, driven by a finite script of
  provider responses (one script element per provider call);
* `update_token_usage` and `summary` embed
  `SessionLogger.update_token_usage` / `SessionLogger.log_total_cost`.

Side effects that the Python code performs through the logger are outside
the data model and are not embedded; the subprocess layer is modelled by
an oracle `ExecOracle` mapping a command and an environment either to a
completed process (stdout, stderr, return code) or to a raised exception
(its message string), mirroring what `subprocess.run` can do.
-/

namespace CliWrapper

/-- Environment-variable snapshot (`self.environment`, a copy of `os.environ`). -/
abbrev Env := List (String × String)

/-- The input payload of a bash tool invocation (`tool_call.get("command")`,
`tool_call.get("restart", False)`). -/
structure ToolCallInput where
  command : Option String
  restart : Bool
deriving DecidableEq, Repr

/-- Python truthiness of the `command` field: `if not command` fails exactly
when the field is present and a non-empty string. -/
def commandTruthy : Option String → Bool
  | none => false
  | some s => !s.isEmpty

/-- Result dictionary of `_handle_bash_command`: `{"content": ...}` or
`{"error": ...}`. -/
inductive CmdResult where
  | content (text : String)
  | error (text : String)
deriving DecidableEq, Repr

/-- Behaviour of one `subprocess.run` call: either a completed process with
captured stdout, stderr and return code, or a raised exception carrying
`str(e)`. -/
inductive ExecOutcome where
  | runs (stdout stderr : String) (returncode : Int)
  | raises (msg : String)
deriving DecidableEq, Repr

/-- Oracle for the subprocess layer: command text and environment determine
the outcome. -/
abbrev ExecOracle := String → Env → ExecOutcome

/-- The fixed dry-run marker text of the mock-execution branch. -/
def dryRunMarker : String := "🔍 Dry Run: Would execute command: "

/-- Python's `str.strip()`: drop whitespace from both ends of the string. -/
def pyStrip (s : String) : String :=
  ⟨((s.data.dropWhile Char.isWhitespace).reverse.dropWhile Char.isWhitespace).reverse⟩

/-- Embedding of `BashSession._handle_bash_command` (src/cli_wrapper.py,
lines 129-185).  `osEnviron` stands for `os.environ.copy()`, `noAgi` for
`self.no_agi`, `env` for the current `self.environment`; the returned pair
is (result dictionary, new `self.environment`).  The branch order is the
order of the source: restart, then empty command, then dry run, then the
subprocess call; an exception raised by the subprocess layer is caught and
turned into `{"error": str(e)}` by the surrounding `try`/`except`. -/
def handleBashCommand (osEnviron : Env) (noAgi : Bool) (exec : ExecOracle)
    (env : Env) (toolCall : ToolCallInput) : CmdResult × Env :=
  if toolCall.restart then
    (.content "Bash session restarted.", osEnviron)
  else if !commandTruthy toolCall.command then
    (.error "No command provided to execute.", env)
  else
    let cmd := toolCall.command.getD ""
    if noAgi then
      (.content (dryRunMarker ++ cmd), env)
    else
      match exec cmd env with
      | .runs stdout stderr rc =>
          let output := pyStrip stdout
          let errorOutput := pyStrip stderr
          if rc ≠ 0 then
            (.error (if errorOutput.isEmpty then "Command execution failed."
                     else errorOutput), env)
          else
            (.content output, env)
      | .raises msg => (.error msg, env)

/-- The tool-result envelope built in `process_tool_calls`:
`{"type": "tool_result", "content": [{"type": "text", "text": ...}],
"tool_use_id": ..., "is_error": ...}`. -/
structure ToolResultEnvelope where
  tool_use_id : String
  text : String
  is_error : Bool
deriving DecidableEq, Repr

/-- Envelope construction of `process_tool_calls` (src/cli_wrapper.py,
lines 203-224): `is_error` is the Python truthiness of
`result.get("error")`, and the text falls back to
`result.get("content", "")` (the empty string for an error dictionary)
when the error value is falsy. -/
def mkEnvelope (id : String) (result : CmdResult) : ToolResultEnvelope :=
  match result with
  | .error e => if !e.isEmpty then ⟨id, e, true⟩ else ⟨id, "", false⟩
  | .content c => ⟨id, c, false⟩

/-- A content block of a provider response: a text block or a `tool_use`
block with id, capability name and input payload. -/
inductive ContentBlock where
  | text (t : String)
  | toolUse (id name : String) (input : ToolCallInput)
deriving DecidableEq, Repr

/-- Embedding of `BashSession.process_tool_calls` (src/cli_wrapper.py,
lines 187-226): blocks are visited in order, only `tool_use` blocks named
"bash" produce an envelope, every other block is skipped; the environment
is threaded through the handler calls. -/
def processToolCalls (osEnviron : Env) (noAgi : Bool) (exec : ExecOracle)
    (env : Env) : List ContentBlock → List ToolResultEnvelope × Env
  | [] => ([], env)
  | .text _ :: rest => processToolCalls osEnviron noAgi exec env rest
  | .toolUse id name input :: rest =>
      if name = "bash" then
        let handled := handleBashCommand osEnviron noAgi exec env input
        let further := processToolCalls osEnviron noAgi exec handled.2 rest
        (mkEnvelope id handled.1 :: further.1, further.2)
      else
        processToolCalls osEnviron noAgi exec env rest

/-- A block of a stored conversation message: a pass-through text block, the
`model_dump()` of a `tool_use` block, or a tool-result envelope. -/
inductive MsgBlock where
  | text (t : String)
  | toolUseDump (id name : String) (input : ToolCallInput)
  | toolResult (e : ToolResultEnvelope)
deriving DecidableEq, Repr

/-- A conversation message (`{"role": ..., "content": [...]}`). -/
structure Message where
  role : String
  content : List MsgBlock
deriving DecidableEq, Repr

/-- Translation of response content blocks into message-history blocks
(src/cli_wrapper.py, lines 277-282): text passes through, everything else
is dumped as structured data. -/
def blockToMsgBlock : ContentBlock → MsgBlock
  | .text t => .text t
  | .toolUse id name input => .toolUseDump id name input

/-- One provider response: stop reason, ordered content blocks, and usage
counters. -/
structure ProviderResponse where
  stop_reason : String
  content : List ContentBlock
  input_tokens : Nat
  output_tokens : Nat
deriving DecidableEq, Repr

/-- The usage ledger of `SessionLogger`: the two token counters. -/
structure UsageLedger where
  total_input_tokens : Nat
  total_output_tokens : Nat
deriving DecidableEq, Repr

/-- Embedding of `SessionLogger.update_token_usage` (src/cli_wrapper.py,
lines 63-66). -/
def update_token_usage (l : UsageLedger) (inputTokens outputTokens : Nat) :
    UsageLedger :=
  { total_input_tokens := l.total_input_tokens + inputTokens,
    total_output_tokens := l.total_output_tokens + outputTokens }

/-- The totals derived in `SessionLogger.log_total_cost` (src/cli_wrapper.py,
lines 68-94): `$3.00` per million input tokens, `$15.00` per million output
tokens. -/
structure CostSummary where
  inputTokens : Nat
  outputTokens : Nat
  inputCost : ℚ
  outputCost : ℚ
  totalCost : ℚ
deriving DecidableEq, Repr

/-- The cost computation of `SessionLogger.log_total_cost`, with exact
rationals in place of Python floats:
`(tokens / 1_000_000) * rate` for each direction, summed. -/
def summary (l : UsageLedger) : CostSummary :=
  let totalInputCost : ℚ := ((l.total_input_tokens : ℚ) / 1000000) * 3
  let totalOutputCost : ℚ := ((l.total_output_tokens : ℚ) / 1000000) * 15
  { inputTokens := l.total_input_tokens,
    outputTokens := l.total_output_tokens,
    inputCost := totalInputCost,
    outputCost := totalOutputCost,
    totalCost := totalInputCost + totalOutputCost }

/-- Mutable state of the agent loop: conversation messages, environment,
usage ledger, and the number of provider calls made so far. -/
structure LoopState where
  messages : List Message
  env : Env
  ledger : UsageLedger
  providerCalls : Nat
deriving DecidableEq, Repr

/-- How one run of `process_bash_command` ends: break with a printed final
answer, break after an error tool result, an uncaught exception re-raised
to the caller (e.g. `response.content[0].text` on a non-text first block),
or the response script ran out while the loop wanted another call. -/
inductive LoopOutcome where
  | finalAnswer (answer : String)
  | abortedOnToolError
  | fault
  | scriptExhausted
deriving DecidableEq, Repr

/-- Embedding of the `while True` loop of `BashSession.process_bash_command`
(src/cli_wrapper.py, lines 254-304), driven by a finite script of provider
responses.  Each round consumes one response: the ledger is updated, the
assistant turn is appended, then either the loop breaks with
`response.content[0].text` (a fault when the first block is not a text
block), or the tool calls are processed and — when the envelope list is
non-empty — a user message containing `[tool_results[0]["output"]]` is
appended, breaking when that first envelope has `is_error` set. -/
def runLoop (osEnviron : Env) (noAgi : Bool) (exec : ExecOracle) :
    List ProviderResponse → LoopState → LoopOutcome × LoopState
  | [], st => (.scriptExhausted, st)
  | r :: rest, st =>
      let st1 : LoopState :=
        { st with
          ledger := update_token_usage st.ledger r.input_tokens r.output_tokens,
          providerCalls := st.providerCalls + 1,
          messages := st.messages ++ [⟨"assistant", r.content.map blockToMsgBlock⟩] }
      if r.stop_reason ≠ "tool_use" then
        match r.content.head? with
        | some (.text t) => (.finalAnswer t, st1)
        | _ => (.fault, st1)
      else
        let processed := processToolCalls osEnviron noAgi exec st1.env r.content
        let st2 : LoopState := { st1 with env := processed.2 }
        match processed.1 with
        | [] => runLoop osEnviron noAgi exec rest st2
        | e :: _ =>
            let st3 : LoopState :=
              { st2 with messages := st2.messages ++ [⟨"user", [.toolResult e]⟩] }
            if e.is_error then (.abortedOnToolError, st3)
            else runLoop osEnviron noAgi exec rest st3

/-- The first text block of a content-block list (the answer §4.3 step 6 of
the specification describes). -/
def firstTextBlock : List ContentBlock → Option String
  | [] => none
  | .text t :: _ => some t
  | .toolUse _ _ _ :: rest => firstTextBlock rest

/-! ## Claims -/

/-- A non-empty string is not `isEmpty` (Python truthiness of a string). -/
theorem isEmpty_false_of_ne (c : String) (hc : c ≠ "") : c.isEmpty = false := by
  cases h : c.isEmpty with
  | false => rfl
  | true => exact absurd ((String.isEmpty_iff c).mp h) hc

/-- C1: for every non-restart, non-dry-run invocation with a non-empty
command whose subprocess exits with status 0, the handler returns a content
result equal to the stripped stdout (possibly the empty string) with the
environment unchanged, and the tool-result envelope built from that result
has `is_error = false` and carries the stripped stdout as its text. -/
theorem c1_exit_zero_content (osEnviron : Env) (exec : ExecOracle) (env : Env)
    (c stdout stderr id : String)
    (hc : c ≠ "")
    (hexec : exec c env = .runs stdout stderr 0) :
    handleBashCommand osEnviron false exec env ⟨some c, false⟩
        = (.content (pyStrip stdout), env)
      ∧ mkEnvelope id (.content (pyStrip stdout))
        = ⟨id, pyStrip stdout, false⟩ := by
  have hce : c.isEmpty = false := isEmpty_false_of_ne c hc
  constructor
  · simp [handleBashCommand, commandTruthy, hce, hexec]
  · simp [mkEnvelope]

/-- Closed witness for `c1_exit_zero_content`. -/
theorem c1_exit_zero_content_witness :
    handleBashCommand [] false (fun _ _ => .runs " hi \n" "" 0) []
        ⟨some "echo hi", false⟩
        = (.content (pyStrip " hi \n"), [])
      ∧ mkEnvelope "toolu_1" (.content (pyStrip " hi \n"))
        = ⟨"toolu_1", pyStrip " hi \n", false⟩ :=
  c1_exit_zero_content [] (fun _ _ => .runs " hi \n" "" 0) []
    "echo hi" " hi \n" "" "toolu_1" (by decide) rfl

/-- C2: for every non-restart, non-dry-run invocation with a non-empty
command whose subprocess exits with a non-zero status, the handler returns
an error result whose text is the stripped stderr, or the fixed message
"Command execution failed." when the stripped stderr is empty, and the
envelope built from that result has `is_error = true`. -/
theorem c2_exit_nonzero_error (osEnviron : Env) (exec : ExecOracle) (env : Env)
    (c stdout stderr id : String) (rc : Int)
    (hc : c ≠ "") (hrc : rc ≠ 0)
    (hexec : exec c env = .runs stdout stderr rc) :
    handleBashCommand osEnviron false exec env ⟨some c, false⟩
        = (.error (if (pyStrip stderr).isEmpty then "Command execution failed."
                   else pyStrip stderr), env)
      ∧ (mkEnvelope id
          (.error (if (pyStrip stderr).isEmpty then "Command execution failed."
                   else pyStrip stderr))).is_error = true := by
  have hce : c.isEmpty = false := isEmpty_false_of_ne c hc
  constructor
  · simp [handleBashCommand, commandTruthy, hce, hexec, hrc]
  · have hfail : ("Command execution failed." : String).isEmpty = false := by
      decide
    cases h : (pyStrip stderr).isEmpty <;> simp [mkEnvelope, h, hfail]

/-- Closed witness for `c2_exit_nonzero_error`. -/
theorem c2_exit_nonzero_error_witness :
    handleBashCommand [] false (fun _ _ => .runs "" " oops\n" 1) []
        ⟨some "ls /nope", false⟩
        = (.error (if (pyStrip " oops\n").isEmpty then "Command execution failed."
                   else pyStrip " oops\n"), [])
      ∧ (mkEnvelope "toolu_2"
          (.error (if (pyStrip " oops\n").isEmpty then "Command execution failed."
                   else pyStrip " oops\n"))).is_error = true :=
  c2_exit_nonzero_error [] (fun _ _ => .runs "" " oops\n" 1) []
    "ls /nope" "" " oops\n" "toolu_2" 1 (by decide) (by decide) rfl

/-- C5: for every invocation with the restart flag set — for every command
field (present, empty or absent), every execution oracle (so no subprocess
is consulted) and every dry-run setting — the handler replaces the session
environment with a fresh copy of the ambient process environment and
returns the fixed confirmation content; holding for all command values
shows the restart branch precedes the empty-command check. -/
theorem c5_restart_resets_environment (osEnviron : Env) (noAgi : Bool)
    (exec : ExecOracle) (env : Env) (cmd : Option String) :
    handleBashCommand osEnviron noAgi exec env ⟨cmd, true⟩
      = (.content "Bash session restarted.", osEnviron) := by
  simp [handleBashCommand]

/-- C6 counterexample: in dry-run mode a non-restart invocation whose
command is the empty string takes the empty-command branch, which the
source checks before the dry-run branch: the result is the fixed error
result, not a content result starting with the dry-run marker, so the claim
fails for the empty command. -/
theorem c6_counterexample :
    handleBashCommand [("HOME", "/root")] true (fun _ _ => .runs "x" "" 0)
        [("HOME", "/root")] ⟨some "", false⟩
      = (.error "No command provided to execute.", [("HOME", "/root")])
    ∧ ((match (handleBashCommand [("HOME", "/root")] true
            (fun _ _ => .runs "x" "" 0) [("HOME", "/root")]
            ⟨some "", false⟩).1 with
        | .content t => t.startsWith dryRunMarker
        | .error _ => false) = false) := by
  exact ⟨by decide, by decide⟩

/-- C6 (amended): in dry-run mode, for every non-restart invocation with a
NON-EMPTY command, no subprocess is consulted (the result is the same for
every execution oracle), the handler returns a content result whose text is
the fixed dry-run marker followed by the command text, and the environment
is unchanged. -/
theorem c6_dry_run (osEnviron : Env) (exec : ExecOracle) (env : Env)
    (c : String) (hc : c ≠ "") :
    handleBashCommand osEnviron true exec env ⟨some c, false⟩
      = (.content (dryRunMarker ++ c), env) := by
  have hce : c.isEmpty = false := isEmpty_false_of_ne c hc
  simp [handleBashCommand, commandTruthy, hce]

/-- Closed witness for `c6_dry_run`. -/
theorem c6_dry_run_witness :
    handleBashCommand [("HOME", "/root")] true (fun _ _ => .runs "x" "" 0)
        [("HOME", "/root")] ⟨some "rm -rf /tmp/x", false⟩
      = (.content (dryRunMarker ++ "rm -rf /tmp/x"), [("HOME", "/root")]) :=
  c6_dry_run [("HOME", "/root")] (fun _ _ => .runs "x" "" 0)
    [("HOME", "/root")] "rm -rf /tmp/x" (by decide)

/-- C7: when the subprocess layer raises an exception instead of completing
(on the one path that reaches it: non-restart, non-empty command, not dry
run), the surrounding try/except converts it into an error result carrying
the exception's message and leaves the environment unchanged; the handler
is a total function, so no fault propagates to the caller. -/
theorem c7_exception_caught (osEnviron : Env) (exec : ExecOracle) (env : Env)
    (c msg : String) (hc : c ≠ "")
    (hexec : exec c env = .raises msg) :
    handleBashCommand osEnviron false exec env ⟨some c, false⟩
      = (.error msg, env) := by
  have hce : c.isEmpty = false := isEmpty_false_of_ne c hc
  simp [handleBashCommand, commandTruthy, hce, hexec]

/-- Closed witness for `c7_exception_caught`. -/
theorem c7_exception_caught_witness :
    handleBashCommand [] false
        (fun _ _ => .raises "No such file or directory: /bin/bash") []
        ⟨some "echo hi", false⟩
      = (.error "No such file or directory: /bin/bash", []) :=
  c7_exception_caught [] (fun _ _ => .raises "No such file or directory: /bin/bash")
    [] "echo hi" "No such file or directory: /bin/bash" (by decide) rfl

/-- C8: the usage ledger is additive — two successive updates equal one
combined update, and hence the derived cost summaries agree as well. -/
theorem c8_ledger_additive (l : UsageLedger) (a b c d : Nat) :
    update_token_usage (update_token_usage l a b) c d
        = update_token_usage l (a + c) (b + d)
      ∧ summary (update_token_usage (update_token_usage l a b) c d)
        = summary (update_token_usage l (a + c) (b + d)) := by
  have h : update_token_usage (update_token_usage l a b) c d
      = update_token_usage l (a + c) (b + d) := by
    simp [update_token_usage, Nat.add_assoc]
  exact ⟨h, by rw [h]⟩

/-- C10: the envelope's `is_error` flag is set exactly when the handler's
result is an error result with a non-empty (Python-truthy) text; in
particular an error result whose text is the empty string — as produced
when a caught exception stringifies to "" — becomes a NON-error envelope
whose text content is the empty string, also end to end through
`process_tool_calls`. -/
theorem c10_is_error_truthy (id : String) (r : CmdResult) :
    ((mkEnvelope id r).is_error = true ↔ ∃ e, r = .error e ∧ e ≠ "")
      ∧ mkEnvelope id (.error "") = ⟨id, "", false⟩
      ∧ processToolCalls [] false (fun _ _ => .raises "") []
          [.toolUse "t1" "bash" ⟨some "x", false⟩]
        = ([⟨"t1", "", false⟩], []) := by
  have h0 : ("" : String).isEmpty = true := by decide
  refine ⟨?_, by simp [mkEnvelope, h0], by decide⟩
  cases r with
  | content c => simp [mkEnvelope]
  | error e =>
      cases h : e.isEmpty with
      | true =>
          have he : e = "" := (String.isEmpty_iff e).mp h
          simp [mkEnvelope, h, he, h0]
      | false =>
          have he : e ≠ "" := by
            intro habs
            rw [habs] at h
            exact absurd h (by decide)
          simp [mkEnvelope, h, he]

/-- C3 counterexample: a tool-use round with TWO bash invocations produces
two envelopes, but the single appended user-role message contains only the
first of them — the entire list is not wrapped as the message's content. -/
theorem c3_counterexample :
    (processToolCalls [] false (fun _ _ => .runs "ok" "" 0) []
        [.toolUse "t1" "bash" ⟨some "a", false⟩,
         .toolUse "t2" "bash" ⟨some "b", false⟩]).1
      = [⟨"t1", "ok", false⟩, ⟨"t2", "ok", false⟩]
    ∧ (runLoop [] false (fun _ _ => .runs "ok" "" 0)
        [⟨"tool_use", [.toolUse "t1" "bash" ⟨some "a", false⟩,
                       .toolUse "t2" "bash" ⟨some "b", false⟩], 1, 2⟩]
        ⟨[], [], ⟨0, 0⟩, 0⟩).2.messages
      = [⟨"assistant", [.toolUseDump "t1" "bash" ⟨some "a", false⟩,
                        .toolUseDump "t2" "bash" ⟨some "b", false⟩]⟩,
         ⟨"user", [.toolResult ⟨"t1", "ok", false⟩]⟩]
    ∧ ([MsgBlock.toolResult ⟨"t1", "ok", false⟩]
        ≠ [.toolResult ⟨"t1", "ok", false⟩, .toolResult ⟨"t2", "ok", false⟩]) := by
  exact ⟨by decide, by decide, by decide⟩

/-- C3 (amended): for every round whose response has stop reason "tool_use"
and whose tool processing yields a non-empty envelope list with a
non-error first envelope, exactly one new user-role message is appended to
the history before the next provider call, and its content is the FIRST
envelope only — envelopes after the first are dropped. -/
theorem c3_first_envelope_wrapped (osEnviron : Env) (noAgi : Bool)
    (exec : ExecOracle) (r : ProviderResponse) (rest : List ProviderResponse)
    (st : LoopState) (e : ToolResultEnvelope) (es : List ToolResultEnvelope)
    (env' : Env)
    (hstop : r.stop_reason = "tool_use")
    (henvs : processToolCalls osEnviron noAgi exec st.env r.content
      = (e :: es, env'))
    (herr : e.is_error = false) :
    runLoop osEnviron noAgi exec (r :: rest) st
      = runLoop osEnviron noAgi exec rest
          { messages := (st.messages
              ++ [⟨"assistant", r.content.map blockToMsgBlock⟩])
              ++ [⟨"user", [.toolResult e]⟩],
            env := env',
            ledger := update_token_usage st.ledger r.input_tokens r.output_tokens,
            providerCalls := st.providerCalls + 1 } := by
  simp [runLoop, hstop, henvs, herr]

/-- Closed witness for `c3_first_envelope_wrapped`. -/
theorem c3_first_envelope_wrapped_witness :
    runLoop [] false (fun _ _ => .runs "ok" "" 0)
        [⟨"tool_use", [.toolUse "t1" "bash" ⟨some "a", false⟩,
                       .toolUse "t2" "bash" ⟨some "b", false⟩], 1, 2⟩,
         ⟨"end_turn", [.text "done"], 3, 4⟩]
        ⟨[], [], ⟨0, 0⟩, 0⟩
      = runLoop [] false (fun _ _ => .runs "ok" "" 0)
          [⟨"end_turn", [.text "done"], 3, 4⟩]
          { messages := (([] : List Message)
              ++ [⟨"assistant",
                    [ContentBlock.toolUse "t1" "bash" ⟨some "a", false⟩,
                     ContentBlock.toolUse "t2" "bash" ⟨some "b", false⟩].map
                      blockToMsgBlock⟩])
              ++ [⟨"user", [.toolResult ⟨"t1", "ok", false⟩]⟩],
            env := [],
            ledger := update_token_usage ⟨0, 0⟩ 1 2,
            providerCalls := 0 + 1 } :=
  c3_first_envelope_wrapped [] false (fun _ _ => .runs "ok" "" 0)
    ⟨"tool_use", [.toolUse "t1" "bash" ⟨some "a", false⟩,
                  .toolUse "t2" "bash" ⟨some "b", false⟩], 1, 2⟩
    [⟨"end_turn", [.text "done"], 3, 4⟩]
    ⟨[], [], ⟨0, 0⟩, 0⟩
    ⟨"t1", "ok", false⟩ [⟨"t2", "ok", false⟩] []
    rfl (by decide) rfl

/-- C4: in a round whose response stops for tool use and whose FIRST
tool-result envelope has `is_error = true`, the loop appends the error
envelope as a user message and terminates at once in the aborted state:
the run is independent of the remaining response script (no further
provider call or tool execution) and makes exactly one provider call in
that round. -/
theorem c4_abort_on_tool_error (osEnviron : Env) (noAgi : Bool)
    (exec : ExecOracle) (r : ProviderResponse) (rest : List ProviderResponse)
    (st : LoopState) (e : ToolResultEnvelope) (es : List ToolResultEnvelope)
    (env' : Env)
    (hstop : r.stop_reason = "tool_use")
    (henvs : processToolCalls osEnviron noAgi exec st.env r.content
      = (e :: es, env'))
    (herr : e.is_error = true) :
    runLoop osEnviron noAgi exec (r :: rest) st
        = runLoop osEnviron noAgi exec [r] st
      ∧ runLoop osEnviron noAgi exec (r :: rest) st
        = (.abortedOnToolError,
           { messages := (st.messages
               ++ [⟨"assistant", r.content.map blockToMsgBlock⟩])
               ++ [⟨"user", [.toolResult e]⟩],
             env := env',
             ledger := update_token_usage st.ledger r.input_tokens r.output_tokens,
             providerCalls := st.providerCalls + 1 }) := by
  have h : ∀ rs : List ProviderResponse,
      runLoop osEnviron noAgi exec (r :: rs) st
        = (.abortedOnToolError,
           { messages := (st.messages
               ++ [⟨"assistant", r.content.map blockToMsgBlock⟩])
               ++ [⟨"user", [.toolResult e]⟩],
             env := env',
             ledger := update_token_usage st.ledger r.input_tokens r.output_tokens,
             providerCalls := st.providerCalls + 1 }) := by
    intro rs
    simp [runLoop, hstop, henvs, herr]
  exact ⟨(h rest).trans (h []).symm, h rest⟩

/-- Closed witness for `c4_abort_on_tool_error`. -/
theorem c4_abort_on_tool_error_witness :
    runLoop [] false (fun _ _ => .runs "" "boom" 1)
        [⟨"tool_use", [.toolUse "t1" "bash" ⟨some "false", false⟩], 1, 2⟩,
         ⟨"end_turn", [.text "never reached"], 3, 4⟩]
        ⟨[], [], ⟨0, 0⟩, 0⟩
      = runLoop [] false (fun _ _ => .runs "" "boom" 1)
          [⟨"tool_use", [.toolUse "t1" "bash" ⟨some "false", false⟩], 1, 2⟩]
          ⟨[], [], ⟨0, 0⟩, 0⟩
    ∧ runLoop [] false (fun _ _ => .runs "" "boom" 1)
        [⟨"tool_use", [.toolUse "t1" "bash" ⟨some "false", false⟩], 1, 2⟩,
         ⟨"end_turn", [.text "never reached"], 3, 4⟩]
        ⟨[], [], ⟨0, 0⟩, 0⟩
      = (.abortedOnToolError,
         { messages := (([] : List Message)
             ++ [⟨"assistant",
                   [ContentBlock.toolUse "t1" "bash" ⟨some "false", false⟩].map
                     blockToMsgBlock⟩])
             ++ [⟨"user", [.toolResult ⟨"t1", "boom", true⟩]⟩],
           env := [],
           ledger := update_token_usage ⟨0, 0⟩ 1 2,
           providerCalls := 0 + 1 }) :=
  c4_abort_on_tool_error [] false (fun _ _ => .runs "" "boom" 1)
    ⟨"tool_use", [.toolUse "t1" "bash" ⟨some "false", false⟩], 1, 2⟩
    [⟨"end_turn", [.text "never reached"], 3, 4⟩]
    ⟨[], [], ⟨0, 0⟩, 0⟩
    ⟨"t1", "boom", true⟩ [] []
    rfl (by decide) rfl

/-- C9 counterexample: a final (non-tool-use) response whose first content
block is a `tool_use` block and whose SECOND block is the text "hi": the
first text block of the content is "hi", but the loop does not terminate
with that answer — `response.content[0].text` faults on the non-text first
block, so the run ends in the re-raised-exception state instead of
`FinalAnswer "hi"`. -/
theorem c9_counterexample :
    firstTextBlock [ContentBlock.toolUse "t1" "bash" ⟨some "x", false⟩,
        .text "hi"] = some "hi"
    ∧ (runLoop [] false (fun _ _ => .runs "" "" 0)
        [⟨"end_turn", [.toolUse "t1" "bash" ⟨some "x", false⟩, .text "hi"],
          0, 0⟩]
        ⟨[], [], ⟨0, 0⟩, 0⟩).1 = .fault
    ∧ (LoopOutcome.fault ≠ .finalAnswer "hi") := by
  exact ⟨by decide, by decide, by decide⟩

/-- C9 (amended): for every response whose stop reason is not "tool_use"
and whose FIRST content block is a text block, the loop terminates in the
final-answer state with that block's text as the answer, after exactly one
more provider call and the assistant turn appended; when the first block is
not a text block the run faults instead. -/
theorem c9_final_answer_first_block (osEnviron : Env) (noAgi : Bool)
    (exec : ExecOracle) (r : ProviderResponse) (rest : List ProviderResponse)
    (st : LoopState) (t : String)
    (hstop : r.stop_reason ≠ "tool_use")
    (hhead : r.content.head? = some (.text t)) :
    runLoop osEnviron noAgi exec (r :: rest) st
      = (.finalAnswer t,
         { messages := st.messages
             ++ [⟨"assistant", r.content.map blockToMsgBlock⟩],
           env := st.env,
           ledger := update_token_usage st.ledger r.input_tokens r.output_tokens,
           providerCalls := st.providerCalls + 1 }) := by
  simp [runLoop, hstop, hhead]

/-- Closed witness for `c9_final_answer_first_block`. -/
theorem c9_final_answer_first_block_witness :
    runLoop [] false (fun _ _ => .runs "" "" 0)
        [⟨"end_turn", [.text "All done."], 5, 6⟩]
        ⟨[], [], ⟨0, 0⟩, 0⟩
      = (.finalAnswer "All done.",
         { messages := ([] : List Message)
             ++ [⟨"assistant", [ContentBlock.text "All done."].map blockToMsgBlock⟩],
           env := [],
           ledger := update_token_usage ⟨0, 0⟩ 5 6,
           providerCalls := 0 + 1 }) :=
  c9_final_answer_first_block [] false (fun _ _ => .runs "" "" 0)
    ⟨"end_turn", [.text "All done."], 5, 6⟩ [] ⟨[], [], ⟨0, 0⟩, 0⟩
    "All done." (by decide) rfl

end CliWrapper
